import Mathlib

/-!
# Verification of the BlueTab Express user-lookup microservice

Shallow embedding of the executable core of the repository
(admission filter, REST surface, GraphQL resolver, lookup service,
error normalizer, singleton App) and proofs of the specified
properties.  Each definition is translated from the TypeScript
source file named in its doc comment.
-/

/-- Request headers relevant to the admission filter.  Each is optional,
mirroring `req.headers.host / origin / referer` in Express. -/
structure Headers where
  host : Option String
  origin : Option String
  referer : Option String
deriving DecidableEq, Repr

/-- `hdr o` is the header value with absence mapped to the empty string,
as in `req.headers.host || ''` (src/middleware/domainRestriction.ts). -/
def hdr (o : Option String) : String := o.getD ""

/-- Substring containment with the semantics of JavaScript
`String.prototype.includes`: `strContains s pat` is true iff `pat`
occurs contiguously in `s` (the empty pattern always occurs). -/
def strContains (s pat : String) : Bool :=
  (List.range (s.length + 1)).any
    (fun i => (s.toList.drop i).take pat.length == pat.toList)

/-- JavaScript `String.prototype.startsWith`: the pattern is an
initial segment of the string.  Modelled over character lists so that
it is fully executable. -/
def strStartsWith (s pat : String) : Bool :=
  s.toList.take pat.length == pat.toList

/-- JavaScript `String.prototype.endsWith`: the pattern is a final
segment of the string.  Modelled over character lists so that it is
fully executable. -/
def strEndsWith (s pat : String) : Bool :=
  s.toList.reverse.take pat.length == pat.toList.reverse

/-- The fixed allow-list from src/middleware/domainRestriction.ts
(`allowedHosts`). -/
def allowedHosts : List String :=
  ["example.com", "www.example.com", "localhost:3000", "127.0.0.1:3000"]

/-- `isAllowedHost` from src/middleware/domainRestriction.ts:
`allowedHosts.some((allowed) => host === allowed || host.endsWith('.' + allowed))`. -/
def isAllowedHost (host : String) : Bool :=
  allowedHosts.any (fun allowed =>
    host == allowed || strEndsWith host ("." ++ allowed))

/-- `isAllowedOrigin` from src/middleware/domainRestriction.ts:
`origin.includes(allowed) || origin === http://allowed || origin === https://allowed`. -/
def isAllowedOrigin (origin : String) : Bool :=
  allowedHosts.any (fun allowed =>
    strContains origin allowed
      || origin == ("http://" ++ allowed)
      || origin == ("https://" ++ allowed))

/-- `isAllowedReferer` from src/middleware/domainRestriction.ts:
`referer.includes(allowed) || referer.startsWith(http://allowed) || referer.startsWith(https://allowed)`. -/
def isAllowedReferer (referer : String) : Bool :=
  allowedHosts.any (fun allowed =>
    strContains referer allowed
      || strStartsWith referer ("http://" ++ allowed)
      || strStartsWith referer ("https://" ++ allowed))

/-- A JSON error envelope `\x7berror, message\x7d` as produced by
`res.json(...)` on the failure paths. -/
structure ErrorBody where
  error : String
  message : String
deriving DecidableEq, Repr

/-- The fixed message of the 403 response in
src/middleware/domainRestriction.ts. -/
def forbiddenMessage : String :=
  "Access denied. This API only accepts traffic from example.com or localhost:3000."

/-- The fixed 403 body of the admission filter. -/
def forbiddenBody : ErrorBody :=
  { error := "Forbidden", message := forbiddenMessage }

/-- Outcome of an Express middleware: pass control on (`next()`), or
respond immediately with a status and error body. -/
inductive MwResult where
  | next : MwResult
  | respond (status : Nat) (body : ErrorBody) : MwResult
deriving DecidableEq, Repr

/-- `domainRestriction` from src/middleware/domainRestriction.ts:
allow when any of the Host / Origin / Referer checks passes, otherwise
respond 403 with the fixed Forbidden envelope. -/
def domainRestriction (h : Headers) : MwResult :=
  let host := hdr h.host
  let origin := hdr h.origin
  let referer := hdr h.referer
  if isAllowedHost host || isAllowedOrigin origin || isAllowedReferer referer then
    MwResult.next
  else
    MwResult.respond 403 forbiddenBody

/-- The admission rule as worded by the spec (section 4.1, decision
rule): allow iff (a) Host equals an allowed entry or ends with a dot
followed by one, or (b) Origin contains an allowed entry or equals the
http/https form, or (c) Referer contains an allowed entry or starts
with the http/https form; absent headers are the empty string. -/
def specAllows (h : Headers) : Bool :=
  (allowedHosts.any (fun e =>
      hdr h.host == e || strEndsWith (hdr h.host) ("." ++ e)))
  || (allowedHosts.any (fun e =>
      strContains (hdr h.origin) e
        || hdr h.origin == ("http://" ++ e)
        || hdr h.origin == ("https://" ++ e)))
  || (allowedHosts.any (fun e =>
      strContains (hdr h.referer) e
        || strStartsWith (hdr h.referer) ("http://" ++ e)
        || strStartsWith (hdr h.referer) ("https://" ++ e)))

/-- A user record, from `interface User` in src/services/userService.ts. -/
structure User where
  id : String
  name : String
deriving DecidableEq, Repr

/-- `UserService.findById` from src/services/userService.ts: Prisma
`findUnique(\x7bwhere: \x7bid\x7d\x7d)` over the user table, modelled as a
first-match lookup by exact id in the list of persisted rows. -/
def findById (store : List User) (id : String) : Option User :=
  store.find? (fun u => u.id == id)

/-- `ApiError` from src/middleware/errorHandler.ts: an error carrying
an explicit HTTP status code.  Its `name` field is always the string
"ApiError". -/
structure ApiError where
  statusCode : Nat
  message : String
deriving DecidableEq, Repr

/-- An error reaching the error normalizer: either an `ApiError`
(`err instanceof ApiError`) or any other thrown error, of which only
the message is retained. -/
inductive ThrownError where
  | api (e : ApiError) : ThrownError
  | other (message : String) : ThrownError
deriving DecidableEq, Repr

/-- A response body on the REST path: a user object, an error
envelope, or the health payload `\x7bstatus: "healthy", timestamp\x7d`. -/
inductive RespBody where
  | user (u : User) : RespBody
  | err (error message : String) : RespBody
  | healthy (timestamp : String) : RespBody
deriving DecidableEq, Repr

/-- An HTTP response: status code and JSON body. -/
structure Response where
  status : Nat
  body : RespBody
deriving DecidableEq, Repr

/-- `errorHandler` from src/middleware/errorHandler.ts: an `ApiError`
keeps its status code and is rendered as `\x7berror: err.name, message:
err.message\x7d`; any other error becomes a fixed 500 envelope. -/
def errorHandler : ThrownError → Response
  | ThrownError.api e => ⟨e.statusCode, RespBody.err "ApiError" e.message⟩
  | ThrownError.other _ =>
      ⟨500, RespBody.err "Internal Server Error" "An unexpected error occurred"⟩

/-- The validation message shared by both surfaces. -/
def invalidIdMessage : String := "Invalid user ID provided"

/-- JavaScript `String.prototype.trim`: drop whitespace characters
from both ends.  Modelled over the character list so that it is fully
executable. -/
def jsTrim (s : String) : String :=
  String.mk
    (((s.toList.dropWhile Char.isWhitespace).reverse.dropWhile
        Char.isWhitespace).reverse)

/-- `validateUserId` from src/routes/userRoutes.ts: forwards
`ApiError(400, "Invalid user ID provided")` when
`!id || typeof id !== 'string' || id.trim().length === 0`; for a string
id the falsiness test `!id` is the empty-string test and the type test
always passes. -/
def validateUserId (id : String) : Option ApiError :=
  if id == "" || (jsTrim id).length == 0 then
    some ⟨400, invalidIdMessage⟩
  else
    none

/-- A single quote character, used in the 404 message interpolation. -/
def squote : String := "\x27"

/-- The 404 body of `GET /users/:id` from src/routes/userRoutes.ts:
`\x7berror: "Not Found", message: "User with ID id not found"\x7d` with the
requested id interpolated between single quotes. -/
def notFoundBody (id : String) : RespBody :=
  RespBody.err "Not Found" ("User with ID " ++ squote ++ id ++ squote ++ " not found")

/-- The `GET /users/:id` handler chain from src/routes/userRoutes.ts,
parameterized over the lookup function `f` it calls (the deployed app
uses `findById store`): run `validateUserId`; a validation error goes
to the error normalizer; otherwise call `f id`; `null` yields the 404
body, a user yields `res.json(user)` (status 200). -/
def getUserByIdWith (f : String → Option User) (id : String) : Response :=
  match validateUserId id with
  | some e => errorHandler (ThrownError.api e)
  | none =>
    match f id with
    | none => ⟨404, notFoundBody id⟩
    | some u => ⟨200, RespBody.user u⟩

/-- `GET /users/:id` against a concrete store. -/
def getUserById (store : List User) (id : String) : Response :=
  getUserByIdWith (findById store) id

/-- Outcome of the GraphQL `user` resolver: a returned value (a user
or null) or a thrown error message. -/
inductive ResolverResult where
  | ok (u : Option User) : ResolverResult
  | thrown (message : String) : ResolverResult
deriving DecidableEq, Repr

/-- `resolvers.Query.user` from src/graphql/resolvers.ts (quoted in
full in Documentation for David/README_Architecture.md), parameterized
over the lookup function: throw `Error("Invalid user ID provided")`
when `!id || typeof id !== 'string' || id.trim().length === 0`,
otherwise return `userService.findById(id)`. -/
def userResolverWith (f : String → Option User) (id : String) : ResolverResult :=
  if id == "" || (jsTrim id).length == 0 then
    ResolverResult.thrown invalidIdMessage
  else
    ResolverResult.ok (f id)

/-- The GraphQL `user` resolver against a concrete store. -/
def userResolver (store : List User) (id : String) : ResolverResult :=
  userResolverWith (findById store) id

/-- A GraphQL response envelope for the single `user` query. -/
inductive GqlResponse where
  | dataUser (u : Option User) : GqlResponse
  | errors (messages : List String) : GqlResponse
deriving DecidableEq, Repr

/-- Modelled from the spec: the GraphQL transport convention applied
by the external Apollo Server (not part of src/) — a resolver that
returns yields `\x7bdata: \x7buser: value\x7d\x7d` with no errors entry, a
resolver that throws yields an errors array carrying the message. -/
def gqlUserQuery (store : List User) (id : String) : GqlResponse :=
  match userResolver store id with
  | ResolverResult.ok u => GqlResponse.dataUser u
  | ResolverResult.thrown m => GqlResponse.errors [m]

/-- The REST id-validity predicate (src/routes/userRoutes.ts): true
iff `validateUserId` passes the request on. -/
def restIdValid (id : String) : Bool :=
  !(id == "" || (jsTrim id).length == 0)

/-- The GraphQL id-validity predicate (src/graphql/resolvers.ts): true
iff the resolver guard does not throw. -/
def gqlIdValid (id : String) : Bool :=
  !(id == "" || (jsTrim id).length == 0)

/-- A route of the Express app relevant to the claims: the health
endpoint or `GET /users/:id`. -/
inductive Route where
  | health : Route
  | userById (id : String) : Route
deriving DecidableEq, Repr

/-- The request pipeline wired by `App` in src/app/App.ts:
`initializeMiddleware` registers `domainRestriction` with `app.use`
before any route, so every route runs only when the filter calls
`next()`; `initializeRoutes` mounts `GET /users/:id` and the
`/health` handler, which responds `\x7bstatus: "healthy", timestamp\x7d`
(the clock reading is passed in as `now`). -/
def appHandle (store : List User) (now : String) (h : Headers) (r : Route) : Response :=
  match domainRestriction h with
  | MwResult.respond s b => ⟨s, RespBody.err b.error b.message⟩
  | MwResult.next =>
    match r with
    | Route.health => ⟨200, RespBody.healthy now⟩
    | Route.userById id => getUserById store id

/-- An `App` object from src/app/App.ts, identified by which run of the
private constructor produced it (the constructor performs the
middleware, route and error-handler wiring). -/
structure App where
  constructionId : Nat
deriving DecidableEq, Repr

/-- The mutable static state behind `App.getInstance`: the
`App.instance` static field (initially unset) together with a count of
how many times the private constructor has run. -/
structure SingletonState where
  inst : Option App
  constructions : Nat
deriving DecidableEq, Repr

/-- Process start: no instance yet, constructor never run. -/
def initialSingletonState : SingletonState := ⟨none, 0⟩

/-- `App.getInstance` from src/app/App.ts: if `App.instance` is unset,
run the private constructor (wiring middleware, routes and the error
handler) and store the new object; return the stored object.  The
JavaScript runtime executes calls sequentially, so the method is a
state transition. -/
def getInstance (s : SingletonState) : App × SingletonState :=
  match s.inst with
  | some a => (a, s)
  | none =>
    let a : App := ⟨s.constructions⟩
    (a, ⟨some a, s.constructions + 1⟩)

/-- Run `n` successive `App.getInstance` calls from state `s`,
collecting the returned objects in order. -/
def runGetInstance : Nat → SingletonState → List App × SingletonState
  | 0, s => ([], s)
  | n + 1, s =>
    let (a, s1) := getInstance s
    let (rest, s2) := runGetInstance n s1
    (a :: rest, s2)

theorem domainRestriction_eq_ite (h : Headers) :
    domainRestriction h =
      if specAllows h then MwResult.next else MwResult.respond 403 forbiddenBody := rfl

theorem validateUserId_eq_none (id : String) (h : (jsTrim id).length ≠ 0) :
    validateUserId id = none := by
  have h1 : id ≠ "" := by
    intro he
    apply h
    rw [he]
    rfl
  simp [validateUserId, h1, h]

/-- C1: the admission filter allows a request iff the spec rule over
Host, Origin and Referer holds (absent headers as empty strings); when
it does not hold, every route of the app — whatever the store, clock
and route — responds 403 with the fixed Forbidden envelope, so no
downstream handler runs. -/
theorem claim1_admission_filter (h : Headers) :
    (domainRestriction h = MwResult.next ↔ specAllows h = true)
    ∧ (specAllows h = false →
        ∀ (store : List User) (now : String) (r : Route),
          appHandle store now h r = ⟨403, RespBody.err "Forbidden" forbiddenMessage⟩) := by
  constructor
  · rw [domainRestriction_eq_ite]
    by_cases hs : specAllows h <;> simp [hs]
  · intro hs store now r
    unfold appHandle
    rw [domainRestriction_eq_ite, hs]
    simp [forbiddenBody]

theorem claim1_admission_filter_witness :
    specAllows ⟨some "evil.com", none, none⟩ = false
    ∧ appHandle [] "2024-01-01T00:00:00Z" ⟨some "evil.com", none, none⟩ Route.health
        = ⟨403, RespBody.err "Forbidden" forbiddenMessage⟩ :=
  ⟨by decide,
   (claim1_admission_filter ⟨some "evil.com", none, none⟩).2 (by decide)
     [] "2024-01-01T00:00:00Z" Route.health⟩

/-- C2: for every admitted `GET /users/:id` whose id is non-empty
after trimming, a stored user yields status 200 with the stored
`\x7bid, name\x7d` body, and an absent id yields status 404 with the
Not Found envelope interpolating the requested id. -/
theorem claim2_rest_get_user (store : List User) (id : String)
    (h : (jsTrim id).length ≠ 0) :
    (∀ u : User, findById store id = some u →
        getUserById store id = ⟨200, RespBody.user u⟩)
    ∧ (findById store id = none →
        getUserById store id = ⟨404, notFoundBody id⟩) := by
  have hv := validateUserId_eq_none id h
  constructor
  · intro u hu
    simp [getUserById, getUserByIdWith, hv, hu]
  · intro hu
    simp [getUserById, getUserByIdWith, hv, hu]

theorem claim2_rest_get_user_witness :
    (jsTrim "user1").length ≠ 0
    ∧ getUserById [⟨"user1", "John Doe"⟩] "user1"
        = ⟨200, RespBody.user ⟨"user1", "John Doe"⟩⟩
    ∧ getUserById [⟨"user1", "John Doe"⟩] "unknown"
        = ⟨404, notFoundBody "unknown"⟩ :=
  ⟨by decide,
   (claim2_rest_get_user [⟨"user1", "John Doe"⟩] "user1" (by decide)).1
     ⟨"user1", "John Doe"⟩ (by decide),
   (claim2_rest_get_user [⟨"user1", "John Doe"⟩] "unknown" (by decide)).2
     (by decide)⟩

/-- C3: for every valid id the GraphQL `user` resolver returns the
stored user when present and returns null — not an error — when
absent, so the response envelope is data with user null and no errors
entry, preserving the asymmetry with the REST 404. -/
theorem claim3_graphql_resolver (store : List User) (id : String)
    (h : (jsTrim id).length ≠ 0) :
    (∀ u : User, findById store id = some u →
        userResolver store id = ResolverResult.ok (some u)
        ∧ gqlUserQuery store id = GqlResponse.dataUser (some u))
    ∧ (findById store id = none →
        userResolver store id = ResolverResult.ok none
        ∧ gqlUserQuery store id = GqlResponse.dataUser none) := by
  have h1 : id ≠ "" := by
    intro he
    apply h
    rw [he]
    rfl
  constructor
  · intro u hu
    constructor <;> simp [userResolver, userResolverWith, gqlUserQuery, h1, h, hu]
  · intro hu
    constructor <;> simp [userResolver, userResolverWith, gqlUserQuery, h1, h, hu]

theorem claim3_graphql_resolver_witness :
    (jsTrim "user2").length ≠ 0
    ∧ userResolver [⟨"user1", "John Doe"⟩] "user2" = ResolverResult.ok none
    ∧ gqlUserQuery [⟨"user1", "John Doe"⟩] "user2" = GqlResponse.dataUser none :=
  ⟨by decide,
   ((claim3_graphql_resolver [⟨"user1", "John Doe"⟩] "user2" (by decide)).2
     (by decide)).1,
   ((claim3_graphql_resolver [⟨"user1", "John Doe"⟩] "user2" (by decide)).2
     (by decide)).2⟩

/-- C4: for every id that is empty after trimming, both surfaces
reject with the message "Invalid user ID provided" — a 400 response on
REST, a thrown error on GraphQL — and the result does not depend on
the lookup function at all, so the store is never reached. -/
theorem claim4_invalid_id_rejected (id : String)
    (h : (jsTrim id).length = 0) :
    ∀ f : String → Option User,
      getUserByIdWith f id = ⟨400, RespBody.err "ApiError" invalidIdMessage⟩
      ∧ userResolverWith f id = ResolverResult.thrown invalidIdMessage := by
  intro f
  constructor
  · simp [getUserByIdWith, validateUserId, errorHandler, h]
  · simp [userResolverWith, h]

theorem claim4_invalid_id_rejected_witness :
    (jsTrim "   ").length = 0
    ∧ getUserByIdWith (fun _ => none) "   "
        = ⟨400, RespBody.err "ApiError" invalidIdMessage⟩
    ∧ userResolverWith (fun _ => none) "   "
        = ResolverResult.thrown invalidIdMessage :=
  ⟨by decide,
   (claim4_invalid_id_rejected "   " (by decide) (fun _ => none)).1,
   (claim4_invalid_id_rejected "   " (by decide) (fun _ => none)).2⟩

/-- C5: the error normalizer passes an ApiError through with exactly
its status code and the `\x7berror, message\x7d` envelope, and maps every
other error to status 500 with the fixed generic body, so the original
failure detail never appears in the response. -/
theorem claim5_error_normalizer (e : ApiError) (m : String) :
    errorHandler (ThrownError.api e) = ⟨e.statusCode, RespBody.err "ApiError" e.message⟩
    ∧ errorHandler (ThrownError.other m)
        = ⟨500, RespBody.err "Internal Server Error" "An unexpected error occurred"⟩ :=
  ⟨rfl, rfl⟩

/-- C6: a request whose apparent origin host is neither an allowed
entry nor a subdomain of one — Origin http://notexample.com.evil.org,
whose host notexample.com.evil.org merely contains example.com as a
substring — is nevertheless allowed by the admission filter. -/
theorem claim6_permissive_substring :
    isAllowedHost "evil.org" = false
    ∧ isAllowedHost "notexample.com.evil.org" = false
    ∧ strContains "http://notexample.com.evil.org" "example.com" = true
    ∧ domainRestriction ⟨some "evil.org", some "http://notexample.com.evil.org", none⟩
        = MwResult.next := by
  refine ⟨by decide, by decide, by decide, by decide⟩

/-- C7: the REST and GraphQL id validations accept exactly the same
ids — a string id passes iff it is non-empty after trimming (the empty
string trims to itself, so presence is subsumed) — and on rejection
both surfaces carry the same message "Invalid user ID provided". -/
theorem claim7_validation_equivalence (id : String) :
    restIdValid id = gqlIdValid id
    ∧ (restIdValid id = true ↔ (jsTrim id).length ≠ 0)
    ∧ (restIdValid id = false →
        ∀ f : String → Option User,
          getUserByIdWith f id = ⟨400, RespBody.err "ApiError" invalidIdMessage⟩
          ∧ userResolverWith f id = ResolverResult.thrown invalidIdMessage) := by
  refine ⟨rfl, ?_, ?_⟩
  · constructor
    · intro hv he
      simp [restIdValid, he] at hv
    · intro hne
      have h1 : id ≠ "" := by
        intro he
        apply hne
        rw [he]
        rfl
      simp [restIdValid, h1, hne]
  · intro hv f
    have h0 : (jsTrim id).length = 0 := by
      by_cases he : id = ""
      · rw [he]
        rfl
      · simp [restIdValid, he] at hv
        exact hv
    constructor
    · simp [getUserByIdWith, validateUserId, errorHandler, h0]
    · simp [userResolverWith, h0]

theorem claim7_validation_equivalence_witness :
    restIdValid " " = gqlIdValid " "
    ∧ restIdValid " " = false
    ∧ getUserByIdWith (fun _ => none) " "
        = ⟨400, RespBody.err "ApiError" invalidIdMessage⟩
    ∧ userResolverWith (fun _ => none) " "
        = ResolverResult.thrown invalidIdMessage :=
  ⟨(claim7_validation_equivalence " ").1,
   by decide,
   ((claim7_validation_equivalence " ").2.2 (by decide) (fun _ => none)).1,
   ((claim7_validation_equivalence " ").2.2 (by decide) (fun _ => none)).2⟩

theorem runGetInstance_stable (n : Nat) (a : App) (c : Nat) :
    runGetInstance n ⟨some a, c⟩ = (List.replicate n a, ⟨some a, c⟩) := by
  induction n with
  | zero => rfl
  | succ k ih =>
      simp [runGetInstance, getInstance, ih, List.replicate]

/-- C8: `App.getInstance` is idempotent — any sequence of `n + 1`
calls from process start returns the same App object every time, and
the private constructor (middleware, routes, error handler wiring)
runs exactly once. -/
theorem claim8_singleton_idempotent (n : Nat) :
    runGetInstance (n + 1) initialSingletonState
      = (List.replicate (n + 1) (App.mk 0), ⟨some (App.mk 0), 1⟩) := by
  simp [runGetInstance, getInstance, initialSingletonState,
    runGetInstance_stable, List.replicate]

/-- C9: the admission filter gates every route, including `GET
/health`: whenever the Host, Origin and Referer checks all fail, the
health endpoint answers 403 with the Forbidden envelope rather than
the documented 200 healthy payload. -/
theorem claim9_health_gated (store : List User) (now : String) (h : Headers)
    (h1 : isAllowedHost (hdr h.host) = false)
    (h2 : isAllowedOrigin (hdr h.origin) = false)
    (h3 : isAllowedReferer (hdr h.referer) = false) :
    appHandle store now h Route.health
      = ⟨403, RespBody.err "Forbidden" forbiddenMessage⟩ := by
  unfold appHandle domainRestriction
  simp [h1, h2, h3, forbiddenBody]

theorem claim9_health_gated_witness :
    isAllowedHost (hdr (some "evil.com")) = false
    ∧ isAllowedOrigin (hdr (none : Option String)) = false
    ∧ isAllowedReferer (hdr (none : Option String)) = false
    ∧ appHandle [] "2024-01-01T00:00:00Z" ⟨some "evil.com", none, none⟩ Route.health
        = ⟨403, RespBody.err "Forbidden" forbiddenMessage⟩ :=
  ⟨by decide, by decide, by decide,
   claim9_health_gated [] "2024-01-01T00:00:00Z" ⟨some "evil.com", none, none⟩
     (by decide) (by decide) (by decide)⟩

/-- C10: both surfaces pass the original, untrimmed id to the lookup
function: for every id non-empty after trimming, the REST handler
calls `f` on the id exactly as received and interpolates it verbatim
into the 404 message, and the resolver returns `f` applied to the
received id — trimming decides validity only, never normalizes. -/
theorem claim10_untrimmed_id (f : String → Option User) (id : String)
    (h : (jsTrim id).length ≠ 0) :
    getUserByIdWith f id
      = (match f id with
         | some u => ⟨200, RespBody.user u⟩
         | none => ⟨404, notFoundBody id⟩)
    ∧ userResolverWith f id = ResolverResult.ok (f id) := by
  have h1 : id ≠ "" := by
    intro he
    apply h
    rw [he]
    rfl
  have hv := validateUserId_eq_none id h
  constructor
  · simp [getUserByIdWith, hv]
    cases f id <;> rfl
  · simp [userResolverWith, h1, h]

theorem claim10_untrimmed_id_witness :
    (jsTrim " user1").length ≠ 0
    ∧ getUserByIdWith (findById [⟨"user1", "John Doe"⟩]) " user1"
        = ⟨404, notFoundBody " user1"⟩
    ∧ userResolverWith (findById [⟨"user1", "John Doe"⟩]) " user1"
        = ResolverResult.ok none :=
  ⟨by decide,
   by
     have hc :=
       (claim10_untrimmed_id (findById [⟨"user1", "John Doe"⟩]) " user1" (by decide)).1
     rw [hc]
     decide,
   by
     have hc :=
       (claim10_untrimmed_id (findById [⟨"user1", "John Doe"⟩]) " user1" (by decide)).2
     rw [hc]
     decide⟩
